import Mathlib

/-!
Verification of the operations-research teaching demos: the production-planning
linear program, the max-flow and shortest-path networks, and the transportation
problems, embedded shallowly from the Python sources.
-/

namespace LinearProgramming

/-- Unit profits of the three products, from solve_production_planning. -/
def profit : Fin 3 → ℚ := ![40, 30, 50]

/-- Labor hours required per unit of each product. -/
def labor_req : Fin 3 → ℚ := ![2, 1, 3]

/-- Material kilograms required per unit of each product. -/
def material_req : Fin 3 → ℚ := ![1, 2, 1]

/-- Available labor hours. -/
def labor_available : ℚ := 100

/-- Available material kilograms. -/
def material_available : ℚ := 80

/-- Objective of the LP: total profit of a production plan. -/
def objective (x : Fin 3 → ℚ) : ℚ := ∑ i, profit i * x i

/-- Labor consumed by a production plan. -/
def labor_used (x : Fin 3 → ℚ) : ℚ := ∑ i, labor_req i * x i

/-- Material consumed by a production plan. -/
def material_used (x : Fin 3 → ℚ) : ℚ := ∑ i, material_req i * x i

/-- Feasibility for the production-planning LP: nonnegative quantities
(lowBound equals 0 in the source) and the two resource constraints. -/
def FeasiblePlan (x : Fin 3 → ℚ) : Prop :=
  (∀ i, 0 ≤ x i) ∧ labor_used x ≤ labor_available ∧
    material_used x ≤ material_available

/-- Optimality for the production-planning LP; the CBC solve of the source is
modelled as returning an optimal feasible plan. -/
def IsOptimalPlan (x : Fin 3 → ℚ) : Prop :=
  FeasiblePlan x ∧ ∀ y, FeasiblePlan y → objective y ≤ objective x

/-- Reference optimal plan of the fixed instance, found by an independent
reference LP solve: 40 units of product A and 20 units of product B. -/
def referenceSolution : Fin 3 → ℚ := ![40, 20, 0]

/-- Reference optimal objective value of the fixed instance. -/
def referenceObjective : ℚ := 2200

lemma referenceSolution_feasible : FeasiblePlan referenceSolution := by
  refine ⟨?_, ?_, ?_⟩
  · intro i
    fin_cases i <;> norm_num [referenceSolution]
  · norm_num [labor_used, labor_req, referenceSolution, labor_available,
      Fin.sum_univ_three]
  · norm_num [material_used, material_req, referenceSolution,
      material_available, Fin.sum_univ_three]

lemma objective_referenceSolution : objective referenceSolution = 2200 := by
  norm_num [objective, profit, referenceSolution, Fin.sum_univ_three]

/-- Dual bound for the fixed instance: multipliers 50/3 and 20/3 on the two
resource constraints dominate the the profit vector, so no feasible plan earns
more than 2200. -/
lemma objective_le_referenceObjective (x : Fin 3 → ℚ) (hx : FeasiblePlan x) :
    objective x ≤ 2200 := by
  obtain ⟨hpos, hl, hm⟩ := hx
  have h0 := hpos 0
  have h1 := hpos 1
  have h2 := hpos 2
  have hl2 : 2 * x 0 + 1 * x 1 + 3 * x 2 ≤ 100 := by
    have := hl
    simpa [labor_used, labor_req, labor_available, Fin.sum_univ_three]
      using this
  have hm2 : 1 * x 0 + 2 * x 1 + 1 * x 2 ≤ 80 := by
    have := hm
    simpa [material_used, material_req, material_available,
      Fin.sum_univ_three] using this
  have hobj : objective x = 40 * x 0 + 30 * x 1 + 50 * x 2 := by
    norm_num [objective, profit, Fin.sum_univ_three]
  rw [hobj]
  linarith

lemma referenceSolution_optimal : IsOptimalPlan referenceSolution := by
  refine ⟨referenceSolution_feasible, ?_⟩
  intro y hy
  rw [objective_referenceSolution]
  exact objective_le_referenceObjective y hy

/-- C1: for the production-planning LP with profit 40, 30, 50, labor
requirements 2, 1, 3, material requirements 1, 2, 1, labor 100 and material 80,
the solve returns the optimal objective value 2200 of this fixed instance,
equal to the independent reference LP solve, and the returned solution uses at
most the available labor and material. -/
theorem C1_production_planning_optimal (x : Fin 3 → ℚ)
    (hx : IsOptimalPlan x) :
    objective x = referenceObjective ∧
      labor_used x ≤ labor_available ∧
      material_used x ≤ material_available := by
  obtain ⟨hfeas, hopt⟩ := hx
  refine ⟨?_, hfeas.2.1, hfeas.2.2⟩
  have hle : objective x ≤ 2200 := objective_le_referenceObjective x hfeas
  have hge : 2200 ≤ objective x := by
    have := hopt referenceSolution referenceSolution_feasible
    rw [objective_referenceSolution] at this
    exact this
  unfold referenceObjective
  linarith

/-- C1 witness: the reference plan is optimal, and at it the conclusion of
the theorem holds concretely. -/
theorem C1_production_planning_optimal_witness :
    objective referenceSolution = referenceObjective ∧
      labor_used referenceSolution ≤ labor_available ∧
      material_used referenceSolution ≤ material_available :=
  C1_production_planning_optimal referenceSolution referenceSolution_optimal

end LinearProgramming

namespace NetworkFlow

/-- Edges of the fixed 6-node supply network of solve_max_flow_problem, in the
order of the edges_capacity list of the source. -/
inductive Edge
  | sa
  | sb
  | ab
  | ac
  | bd
  | cb
  | ct
  | dc
  | dt
deriving DecidableEq

/-- Capacity of each edge, from the edges_capacity list of the source. -/
def capacity : Edge → ℚ
  | .sa => 16
  | .sb => 13
  | .ab => 4
  | .ac => 12
  | .bd => 14
  | .cb => 9
  | .ct => 20
  | .dc => 7
  | .dt => 4

/-- Flow assignment on the fixed network: one rational per edge, mirroring the
per-edge entries of max_flow_dict. -/
def Flow : Type := Edge → ℚ

/-- Feasibility of a flow: capacity bounds on every edge and conservation at
the four intermediate nodes A, B, C, D. -/
def FeasibleFlow (f : Flow) : Prop :=
  (∀ e, 0 ≤ f e ∧ f e ≤ capacity e) ∧
    f .sa = f .ab + f .ac ∧
    f .sb + f .ab + f .cb = f .bd ∧
    f .ac + f .dc = f .cb + f .ct ∧
    f .bd = f .dc + f .dt

/-- Value of a flow: total flow leaving the source S. -/
def flowValue (f : Flow) : ℚ := f .sa + f .sb

/-- Maximality of a flow; the NetworkX maximum_flow call of the source is
modelled as returning a feasible flow of maximum value. -/
def IsMaxFlow (f : Flow) : Prop :=
  FeasibleFlow f ∧ ∀ g, FeasibleFlow g → flowValue g ≤ flowValue f

/-- An S-T cut of the fixed network, described by which of the intermediate
nodes A, B, C, D lie on the source side; S is always on the source side and T
on the sink side. -/
structure Cut where
  memA : Bool
  memB : Bool
  memC : Bool
  memD : Bool
deriving DecidableEq

/-- Capacity of a cut: total capacity of the edges leaving the source side. -/
def cutCapacity (c : Cut) : ℚ :=
  (if c.memA then 0 else capacity .sa) +
    (if c.memB then 0 else capacity .sb) +
    (if c.memA && !c.memB then capacity .ab else 0) +
    (if c.memA && !c.memC then capacity .ac else 0) +
    (if c.memB && !c.memD then capacity .bd else 0) +
    (if c.memC && !c.memB then capacity .cb else 0) +
    (if c.memC then capacity .ct else 0) +
    (if c.memD && !c.memC then capacity .dc else 0) +
    (if c.memD then capacity .dt else 0)

/-- Minimality of a cut among all S-T cuts of the fixed network. -/
def IsMinCut (c : Cut) : Prop := ∀ d : Cut, cutCapacity c ≤ cutCapacity d

/-- Explicit maximum flow of the fixed network, of value 23. -/
def referenceFlow : Flow
  | .sa => 12
  | .sb => 11
  | .ab => 0
  | .ac => 12
  | .bd => 11
  | .cb => 0
  | .ct => 19
  | .dc => 7
  | .dt => 4

/-- Explicit minimum cut of the fixed network: source side S, A, B, D, with
crossing edges A to C, D to C and D to T of total capacity 23. -/
def referenceCut : Cut := ⟨true, true, false, true⟩

lemma referenceFlow_feasible : FeasibleFlow referenceFlow := by
  refine ⟨?_, by norm_num [referenceFlow], by norm_num [referenceFlow],
    by norm_num [referenceFlow], by norm_num [referenceFlow]⟩
  intro e
  cases e <;> norm_num [referenceFlow, capacity]

lemma referenceFlow_value : flowValue referenceFlow = 23 := by
  norm_num [flowValue, referenceFlow]

/-- Weak duality at the reference cut: every feasible flow has value at most
23, because the value equals the net flow across the cut with source side
S, A, B, D, which the crossing capacities 12, 7 and 4 bound. -/
lemma flowValue_le_23 (f : Flow) (hf : FeasibleFlow f) : flowValue f ≤ 23 := by
  obtain ⟨hcap, hA, hB, hC, hD⟩ := hf
  have hac := hcap .ac
  have hdc := hcap .dc
  have hdt := hcap .dt
  have hcb := hcap .cb
  simp only [capacity] at hac hdc hdt hcb
  unfold flowValue
  linarith

lemma cutCapacity_referenceCut : cutCapacity referenceCut = 23 := by
  norm_num [cutCapacity, referenceCut, capacity]

/-- Every S-T cut of the fixed network has capacity at least 23, by inspection
of all sixteen cuts. -/
lemma cutCapacity_ge_23 (c : Cut) : 23 ≤ cutCapacity c := by
  obtain ⟨a, b, cc, d⟩ := c
  cases a <;> cases b <;> cases cc <;> cases d <;>
    norm_num [cutCapacity, capacity]

lemma referenceCut_min : IsMinCut referenceCut := by
  intro d
  rw [cutCapacity_referenceCut]
  exact cutCapacity_ge_23 d

lemma referenceFlow_max : IsMaxFlow referenceFlow := by
  refine ⟨referenceFlow_feasible, ?_⟩
  intro g hg
  rw [referenceFlow_value]
  exact flowValue_le_23 g hg

/-- C2: for the fixed 6-node network, the computed maximum flow value equals
the capacity of a minimum S-T cut, and every edge flow of the returned flow
assignment lies between 0 and the capacity of its edge. -/
theorem C2_max_flow_min_cut (f : Flow) (c : Cut)
    (hf : IsMaxFlow f) (hc : IsMinCut c) :
    flowValue f = cutCapacity c ∧ ∀ e, 0 ≤ f e ∧ f e ≤ capacity e := by
  obtain ⟨hfeas, hmax⟩ := hf
  refine ⟨?_, hfeas.1⟩
  have h1 : flowValue f ≤ 23 := flowValue_le_23 f hfeas
  have h2 : 23 ≤ flowValue f := by
    have := hmax referenceFlow referenceFlow_feasible
    rw [referenceFlow_value] at this
    exact this
  have h3 : cutCapacity c ≤ 23 := by
    have := hc referenceCut
    rw [cutCapacity_referenceCut] at this
    exact this
  have h4 : 23 ≤ cutCapacity c := cutCapacity_ge_23 c
  linarith

/-- C2 witness: the reference flow and the reference cut realize the theorem
at concrete values. -/
theorem C2_max_flow_min_cut_witness :
    flowValue referenceFlow = cutCapacity referenceCut ∧
      ∀ e, 0 ≤ referenceFlow e ∧ referenceFlow e ≤ capacity e :=
  C2_max_flow_min_cut referenceFlow referenceCut referenceFlow_max
    referenceCut_min

/-- Cities of the fixed road network of solve_shortest_path_problem: the
start node, the four intermediate cities A, B, C, D and the destination. -/
inductive City
  | origin
  | cityA
  | cityB
  | cityC
  | cityD
  | dest
deriving DecidableEq, Fintype

/-- Roads of the fixed undirected network with their distances, in the order
of the roads list of the source. -/
def roads : List (City × City × ℕ) :=
  [(.origin, .cityA, 10), (.origin, .cityB, 15),
   (.cityA, .cityC, 12), (.cityA, .cityD, 15),
   (.cityB, .cityC, 8), (.cityB, .cityD, 7),
   (.cityC, .dest, 10), (.cityD, .dest, 12),
   (.cityA, .cityB, 6), (.cityC, .cityD, 5)]

/-- Weight of the undirected edge between two cities, when a road joins
them. -/
def edgeWeight (u v : City) : Option ℕ :=
  (roads.find? fun r =>
      (r.1 == u && r.2.1 == v) || (r.1 == v && r.2.1 == u)).map
    fun r => r.2.2

/-- Total distance of a route through the network: the sum of the edge
weights of its consecutive pairs, or none when some hop is not a road. -/
def pathCost : List City → Option ℕ
  | [] => none
  | [_] => some 0
  | u :: v :: rest =>
    match edgeWeight u v, pathCost (v :: rest) with
    | some w, some c => some (w + c)
    | _, _ => none

/-- A route from u to v along roads of the network. -/
def PathFromTo (p : List City) (u v : City) : Prop :=
  p.head? = some u ∧ p.getLast? = some v ∧ (pathCost p).isSome

/-- A simple route: a route that repeats no city. -/
def SimplePathFromTo (p : List City) (u v : City) : Prop :=
  PathFromTo p u v ∧ p.Nodup

/-- Shortest-path distances from the start node, the certificate for
optimality of the returned route. -/
def distLabel : City → ℕ
  | .origin => 0
  | .cityA => 10
  | .cityB => 15
  | .cityC => 22
  | .cityD => 22
  | .dest => 32

/-- Check of the triangle inequality of the distance labels over one edge. -/
def edgeOk (u v : City) : Bool :=
  match edgeWeight u v with
  | none => true
  | some w => decide (distLabel v ≤ distLabel u + w)

lemma edgeOk_all (u v : City) : edgeOk u v = true := by
  revert u v
  decide

lemma distLabel_le_edge (u v : City) (w : ℕ) (h : edgeWeight u v = some w) :
    distLabel v ≤ distLabel u + w := by
  have he := edgeOk_all u v
  simp only [edgeOk, h, decide_eq_true_eq] at he
  exact he

/-- Monotonicity of the distance labels along any route: the label of the end
of a route exceeds the label of its start by at most the route cost. -/
lemma distLabel_le_path (p : List City) :
    ∀ u v c, p.head? = some u → p.getLast? = some v → pathCost p = some c →
      distLabel v ≤ distLabel u + c := by
  induction p with
  | nil =>
    intro u v c hh _ _
    simp at hh
  | cons x t ih =>
    intro u v c hh hl hc
    cases t with
    | nil =>
      simp only [List.head?_cons, Option.some.injEq] at hh
      simp only [List.getLast?_singleton, Option.some.injEq] at hl
      simp only [pathCost, Option.some.injEq] at hc
      subst hh
      subst hl
      omega
    | cons y r =>
      simp only [List.head?_cons, Option.some.injEq] at hh
      subst hh
      rw [List.getLast?_cons_cons] at hl
      rcases hw : edgeWeight x y with _ | w
      · rw [pathCost, hw] at hc
        simp at hc
      · rcases hpc : pathCost (y :: r) with _ | c2
        · rw [pathCost, hw, hpc] at hc
          simp at hc
        · rw [pathCost, hw, hpc] at hc
          simp only [Option.some.injEq] at hc
          have h1 := ih y v c2 rfl hl hpc
          have h2 := distLabel_le_edge x y w hw
          omega

/-- The route that the source prints for the fixed network: start, city A,
city C, destination. -/
def referencePath : List City := [.origin, .cityA, .cityC, .dest]

lemma referencePath_cost : pathCost referencePath = some 32 := by decide

lemma referencePath_fromTo : PathFromTo referencePath .origin .dest := by
  refine ⟨rfl, by decide, ?_⟩
  rw [referencePath_cost]
  rfl

/-- Lower bound from the certificate: every route from the start to the
destination costs at least 32. -/
lemma path_cost_ge_32 (q : List City) (c : ℕ)
    (hq : PathFromTo q .origin .dest) (hc : pathCost q = some c) : 32 ≤ c := by
  obtain ⟨hh, hl, _⟩ := hq
  have := distLabel_le_path q .origin .dest c hh hl hc
  simpa [distLabel] using this

/-- Contract of the shortest_path call of the source: a route from the start
to the destination whose cost is minimal among all such routes. -/
def IsShortestPath (p : List City) : Prop :=
  PathFromTo p .origin .dest ∧
    ∀ q cp cq, PathFromTo q .origin .dest → pathCost p = some cp →
      pathCost q = some cq → cp ≤ cq

/-- Contract of the shortest_path_length call of the source: the minimal cost
over all routes from the start to the destination. -/
def IsShortestDistance (d : ℕ) : Prop :=
  (∃ p, PathFromTo p .origin .dest ∧ pathCost p = some d) ∧
    ∀ q c, PathFromTo q .origin .dest → pathCost q = some c → d ≤ c

lemma referencePath_shortest : IsShortestPath referencePath := by
  refine ⟨referencePath_fromTo, ?_⟩
  intro q cp cq hq hcp hcq
  rw [referencePath_cost] at hcp
  cases hcp
  exact path_cost_ge_32 q cq hq hcq

lemma shortestDistance_32 : IsShortestDistance 32 := by
  refine ⟨⟨referencePath, referencePath_fromTo, referencePath_cost⟩, ?_⟩
  intro q c hq hc
  exact path_cost_ge_32 q c hq hc

/-- C3: for the fixed 6-city road network, the returned shortest distance
equals the sum of the edge weights along the returned shortest route, this
common value is 32, and it is at most the cost of every simple route between
the same endpoints. -/
theorem C3_shortest_path_optimal (p : List City) (d : ℕ)
    (hp : IsShortestPath p) (hd : IsShortestDistance d) :
    pathCost p = some d ∧ d = 32 ∧
      ∀ q c, SimplePathFromTo q .origin .dest → pathCost q = some c →
        d ≤ c := by
  obtain ⟨hpPath, hpMin⟩ := hp
  obtain ⟨⟨p0, hp0, hc0⟩, hdMin⟩ := hd
  have hd32 : d = 32 := by
    have h1 : d ≤ 32 :=
      hdMin referencePath 32 referencePath_fromTo referencePath_cost
    have h2 : 32 ≤ d := path_cost_ge_32 p0 d hp0 hc0
    omega
  obtain ⟨hh, hl, hs⟩ := hpPath
  rcases hcp : pathCost p with _ | cp
  · rw [hcp] at hs
    simp at hs
  · have h1 : cp ≤ d := hpMin p0 cp d hp0 hcp hc0
    have h2 : d ≤ cp := hdMin p cp ⟨hh, hl, by rw [hcp]; rfl⟩ hcp
    have : cp = d := by omega
    subst this
    refine ⟨rfl, hd32, ?_⟩
    intro q c hq hc
    subst hd32
    exact path_cost_ge_32 q c hq.1 hc

/-- C3 witness: the reference route and the distance 32 realize the theorem
at concrete values. -/
theorem C3_shortest_path_optimal_witness :
    pathCost referencePath = some 32 ∧ (32 : ℕ) = 32 ∧
      ∀ q c, SimplePathFromTo q .origin .dest → pathCost q = some c →
        32 ≤ c :=
  C3_shortest_path_optimal referencePath 32 referencePath_shortest
    shortestDistance_32

end NetworkFlow

namespace Transportation

/-- Comparison operator of a linear constraint. -/
inductive Cmp
  | le
  | ge
  | eq
deriving DecidableEq

/-- Input data of a basic transportation problem: supplies, demands and the
unit-cost matrix. -/
structure Scenario where
  supply : List ℤ
  demand : List ℤ
  cost : List (List ℤ)
deriving DecidableEq

/-- Rebalancing step of solve_basic_transportation: when total supply and
total demand differ, append one zero-cost dummy warehouse absorbing the
surplus when supply exceeds demand, and otherwise one zero-cost dummy factory;
the appended zero column of the source is the zeros vector of length three,
matching the three factories of the demo, embedded as one zero at the end of
each cost row. -/
def rebalance (supply demand : List ℤ) (cost : List (List ℤ)) :
    List ℤ × List ℤ × List (List ℤ) :=
  if supply.sum = demand.sum then (supply, demand, cost)
  else if demand.sum < supply.sum then
    (supply, demand ++ [supply.sum - demand.sum],
      cost.map fun row => row ++ [0])
  else
    (supply ++ [demand.sum - supply.sum], demand,
      cost ++ [List.replicate demand.length 0])

/-- Supplies after the rebalancing step. -/
def adjustedSupply (s d : List ℤ) (c : List (List ℤ)) : List ℤ :=
  (rebalance s d c).1

/-- Demands after the rebalancing step. -/
def adjustedDemand (s d : List ℤ) (c : List (List ℤ)) : List ℤ :=
  (rebalance s d c).2.1

/-- Cost matrix after the rebalancing step. -/
def adjustedCost (s d : List ℤ) (c : List (List ℤ)) : List (List ℤ) :=
  (rebalance s d c).2.2

/-- Optimization model built by solve_basic_transportation: objective
coefficients from the rebalanced cost matrix, one supply constraint per
factory and one demand constraint per warehouse, each an equality with the
corresponding rebalanced amount on the right-hand side. -/
structure TransportModel where
  objCoeffs : List (List ℤ)
  supplyCons : List (Cmp × ℤ)
  demandCons : List (Cmp × ℤ)
deriving DecidableEq

/-- Model construction of solve_basic_transportation, performed on every
scenario with no validation step before it. -/
def buildBasicModel (s : Scenario) : TransportModel :=
  { objCoeffs := adjustedCost s.supply s.demand s.cost
    supplyCons := (adjustedSupply s.supply s.demand s.cost).map
      fun v => (Cmp.eq, v)
    demandCons := (adjustedDemand s.supply s.demand s.cost).map
      fun v => (Cmp.eq, v) }

/-- Supplies of the three factories of the hard-coded demo instance. -/
def supply : List ℤ := [300, 400, 500]

/-- Demands of the four warehouses of the hard-coded demo instance. -/
def demand : List ℤ := [250, 350, 400, 200]

/-- Unit transport costs of the hard-coded demo instance. -/
def cost_matrix : List (List ℤ) :=
  [[8, 6, 10, 9], [9, 12, 13, 7], [14, 9, 16, 5]]

/-- The hard-coded scenario of solve_basic_transportation. -/
def demoScenario : Scenario := ⟨supply, demand, cost_matrix⟩

/-- C4: whenever total supply and total demand differ, the rebalancing step
adds exactly one dummy node whose every unit cost is 0, a dummy warehouse
absorbing the surplus when supply exceeds demand and a dummy factory
otherwise, and afterwards the adjusted totals agree exactly. -/
theorem C4_rebalancing_adds_one_zero_cost_dummy
    (s d : List ℤ) (c : List (List ℤ)) (hne : s.sum ≠ d.sum) :
    (adjustedSupply s d c).sum = (adjustedDemand s d c).sum ∧
      (adjustedSupply s d c).length + (adjustedDemand s d c).length =
        s.length + d.length + 1 ∧
      ((d.sum < s.sum ∧ adjustedSupply s d c = s ∧
          ∀ row ∈ adjustedCost s d c, row.getLast? = some 0) ∨
        (s.sum < d.sum ∧ adjustedDemand s d c = d ∧
          ∃ dummyRow, (adjustedCost s d c).getLast? = some dummyRow ∧
            ∀ z ∈ dummyRow, z = 0)) := by
  unfold adjustedSupply adjustedDemand adjustedCost rebalance
  rcases lt_trichotomy d.sum s.sum with hlt | heq | hgt
  · rw [if_neg hne, if_pos hlt]
    refine ⟨?_, ?_, Or.inl ⟨hlt, rfl, ?_⟩⟩
    · simp only [List.sum_append, List.sum_cons, List.sum_nil]
      omega
    · simp only [List.length_append, List.length_cons, List.length_nil]
      omega
    · intro row hrow
      simp only [List.mem_map] at hrow
      obtain ⟨r0, _, hr0⟩ := hrow
      rw [← hr0]
      exact List.getLast?_concat r0
  · exact absurd heq.symm hne
  · have hnlt : ¬ d.sum < s.sum := by omega
    rw [if_neg hne, if_neg hnlt]
    refine ⟨?_, ?_, Or.inr ⟨hgt, rfl, List.replicate d.length 0, ?_, ?_⟩⟩
    · simp only [List.sum_append, List.sum_cons, List.sum_nil]
      omega
    · simp only [List.length_append, List.length_cons, List.length_nil]
      omega
    · exact List.getLast?_concat c
    · intro z hz
      exact List.eq_of_mem_replicate hz

/-- C4 witness: a scenario with supplies totalling 1200 and demands totalling
1000 gets, after rebalancing, one zero-cost dummy warehouse and equal
totals. -/
theorem C4_rebalancing_adds_one_zero_cost_dummy_witness :
    (adjustedSupply supply [250, 350, 400] cost_matrix).sum =
        (adjustedDemand supply [250, 350, 400] cost_matrix).sum ∧
      (adjustedSupply supply [250, 350, 400] cost_matrix).length +
          (adjustedDemand supply [250, 350, 400] cost_matrix).length =
        supply.length + [(250 : ℤ), 350, 400].length + 1 ∧
      (([(250 : ℤ), 350, 400].sum < supply.sum ∧
          adjustedSupply supply [250, 350, 400] cost_matrix = supply ∧
          ∀ row ∈ adjustedCost supply [250, 350, 400] cost_matrix,
            row.getLast? = some 0) ∨
        (supply.sum < [(250 : ℤ), 350, 400].sum ∧
          adjustedDemand supply [250, 350, 400] cost_matrix =
            [250, 350, 400] ∧
          ∃ dummyRow,
            (adjustedCost supply [250, 350, 400] cost_matrix).getLast? =
              some dummyRow ∧ ∀ z ∈ dummyRow, z = 0)) :=
  C4_rebalancing_adds_one_zero_cost_dummy supply [250, 350, 400] cost_matrix
    (by decide)

/-- C9: in the basic transportation model every supply constraint and every
demand constraint is an equality, and for the hard-coded instance total supply
and total demand are both 1200, so the rebalancing step leaves the scenario
unchanged and the dummy-node branch never executes. -/
theorem C9_equality_constraints_balanced_demo :
    supply.sum = 1200 ∧ demand.sum = 1200 ∧
      rebalance supply demand cost_matrix = (supply, demand, cost_matrix) ∧
      (∀ con ∈ (buildBasicModel demoScenario).supplyCons, con.1 = Cmp.eq) ∧
      (∀ con ∈ (buildBasicModel demoScenario).demandCons, con.1 = Cmp.eq) := by
  refine ⟨by decide, by decide, by decide, ?_, ?_⟩
  · intro con hcon
    simp only [buildBasicModel, List.mem_map] at hcon
    obtain ⟨v, _, hv⟩ := hcon
    rw [← hv]
  · intro con hcon
    simp only [buildBasicModel, List.mem_map] at hcon
    obtain ⟨v, _, hv⟩ := hcon
    rw [← hv]

/-- Description following the words of the spec, for comparison with the
source: a scenario is invalid when the dimensions of the cost matrix disagree
with the counts of origins and destinations, or some supply, demand or cost
value is negative. The source contains no such check. -/
def invalidScenario (s : Scenario) : Bool :=
  s.cost.length != s.supply.length ||
    s.cost.any (fun row => row.length != s.demand.length) ||
    s.supply.any (fun v => v < 0) ||
    s.demand.any (fun v => v < 0) ||
    s.cost.any (fun row => row.any (fun v => v < 0))

/-- Malformed scenario with a negative supply, of correct dimensions. -/
def badScenario : Scenario :=
  ⟨[-300, 400, 500], [250, 350, 400, 200], cost_matrix⟩

/-- C6 counterexample: the malformed scenario with a negative supply is not
rejected; solve_basic_transportation flows it straight through rebalancing and
builds a complete model, here with a dummy factory absorbing the imbalance the
negative value creates. -/
theorem C6_invalid_scenario_accepted :
    invalidScenario badScenario = true ∧
      buildBasicModel badScenario =
        { objCoeffs := [[8, 6, 10, 9], [9, 12, 13, 7], [14, 9, 16, 5],
            [0, 0, 0, 0]]
          supplyCons := [(Cmp.eq, -300), (Cmp.eq, 400), (Cmp.eq, 500),
            (Cmp.eq, 600)]
          demandCons := [(Cmp.eq, 250), (Cmp.eq, 350), (Cmp.eq, 400),
            (Cmp.eq, 200)] } := by
  constructor
  · decide
  · decide

/-- C6 amended: the builder validates nothing; every scenario, invalid ones
included, is accepted and produces a model with one constraint per adjusted
factory and per adjusted warehouse, and the hard-coded demo scenario is
well-formed, so no malformed input ever reaches the builder in the demo
run. -/
theorem C6_no_validation_model_always_built (s : Scenario)
    (_hs : invalidScenario s = true) :
    (buildBasicModel s).supplyCons.length =
        (adjustedSupply s.supply s.demand s.cost).length ∧
      (buildBasicModel s).demandCons.length =
        (adjustedDemand s.supply s.demand s.cost).length ∧
      invalidScenario demoScenario = false := by
  refine ⟨?_, ?_, by decide⟩
  · simp [buildBasicModel]
  · simp [buildBasicModel]

/-- C6 witness: the malformed scenario with a negative supply satisfies the
hypothesis and the builder produces its full set of constraints. -/
theorem C6_no_validation_model_always_built_witness :
    (buildBasicModel badScenario).supplyCons.length =
        (adjustedSupply badScenario.supply badScenario.demand
          badScenario.cost).length ∧
      (buildBasicModel badScenario).demandCons.length =
        (adjustedDemand badScenario.supply badScenario.demand
          badScenario.cost).length ∧
      invalidScenario demoScenario = false :=
  C6_no_validation_model_always_built badScenario (by decide)

/-- Supplies of the demo instance as rationals, for the LP semantics. -/
def supplyQ : Fin 3 → ℚ := ![300, 400, 500]

/-- Demands of the demo instance as rationals. -/
def demandQ : Fin 4 → ℚ := ![250, 350, 400, 200]

/-- Unit costs of the demo instance as rationals. -/
def costQ : Fin 3 → Fin 4 → ℚ :=
  ![![8, 6, 10, 9], ![9, 12, 13, 7], ![14, 9, 16, 5]]

/-- Total transport cost of a shipment plan. -/
def transportCost (x : Fin 3 → Fin 4 → ℚ) : ℚ :=
  ∑ i, ∑ j, costQ i j * x i j

/-- Feasibility of a shipment plan: nonnegative quantities, each factory
ships exactly its supply and each warehouse receives exactly its demand. -/
def FeasibleShipment (x : Fin 3 → Fin 4 → ℚ) : Prop :=
  (∀ i j, 0 ≤ x i j) ∧ (∀ i, ∑ j, x i j = supplyQ i) ∧
    (∀ j, ∑ i, x i j = demandQ j)

/-- Optimality of a shipment plan; the CBC solve of the source is modelled as
returning an optimal feasible plan. -/
def IsOptimalShipment (x : Fin 3 → Fin 4 → ℚ) : Prop :=
  FeasibleShipment x ∧
    ∀ y, FeasibleShipment y → transportCost x ≤ transportCost y

/-- The optimal shipment plan of the demo instance, of cost 10700. -/
def optimalShipment : Fin 3 → Fin 4 → ℚ :=
  ![![0, 50, 250, 0], ![250, 0, 150, 0], ![0, 300, 0, 200]]

lemma optimalShipment_feasible : FeasibleShipment optimalShipment := by
  refine ⟨?_, ?_, ?_⟩
  · intro i j
    fin_cases i <;> fin_cases j <;> norm_num [optimalShipment]
  · intro i
    fin_cases i <;>
      norm_num [optimalShipment, supplyQ, Fin.sum_univ_four]
  · intro j
    fin_cases j <;>
      norm_num [optimalShipment, demandQ, Fin.sum_univ_three]

lemma transportCost_optimalShipment : transportCost optimalShipment = 10700 := by
  norm_num [transportCost, costQ, optimalShipment, Fin.sum_univ_three,
    Fin.sum_univ_four]

/-- Dual bound for the demo instance: potentials 0, 3, 3 on factories and
6, 6, 10, 2 on warehouses certify that no feasible shipment costs less than
10700. -/
lemma transportCost_ge_10700 (y : Fin 3 → Fin 4 → ℚ)
    (hy : FeasibleShipment y) : 10700 ≤ transportCost y := by
  obtain ⟨hpos, hrow, hcol⟩ := hy
  have h00 := hpos 0 0
  have h01 := hpos 0 1
  have h02 := hpos 0 2
  have h03 := hpos 0 3
  have h10 := hpos 1 0
  have h11 := hpos 1 1
  have h12 := hpos 1 2
  have h13 := hpos 1 3
  have h20 := hpos 2 0
  have h21 := hpos 2 1
  have h22 := hpos 2 2
  have h23 := hpos 2 3
  have hr0 : y 0 0 + y 0 1 + y 0 2 + y 0 3 = 300 := by
    have := hrow 0
    simpa [Fin.sum_univ_four, supplyQ] using this
  have hr1 : y 1 0 + y 1 1 + y 1 2 + y 1 3 = 400 := by
    have := hrow 1
    simpa [Fin.sum_univ_four, supplyQ] using this
  have hr2 : y 2 0 + y 2 1 + y 2 2 + y 2 3 = 500 := by
    have := hrow 2
    simpa [Fin.sum_univ_four, supplyQ] using this
  have hc0 : y 0 0 + y 1 0 + y 2 0 = 250 := by
    have := hcol 0
    simpa [Fin.sum_univ_three, demandQ] using this
  have hc1 : y 0 1 + y 1 1 + y 2 1 = 350 := by
    have := hcol 1
    simpa [Fin.sum_univ_three, demandQ] using this
  have hc2 : y 0 2 + y 1 2 + y 2 2 = 400 := by
    have := hcol 2
    simpa [Fin.sum_univ_three, demandQ] using this
  have hc3 : y 0 3 + y 1 3 + y 2 3 = 200 := by
    have := hcol 3
    simpa [Fin.sum_univ_three, demandQ] using this
  have hobj : transportCost y =
      8 * y 0 0 + 6 * y 0 1 + 10 * y 0 2 + 9 * y 0 3 +
        (9 * y 1 0 + 12 * y 1 1 + 13 * y 1 2 + 7 * y 1 3) +
        (14 * y 2 0 + 9 * y 2 1 + 16 * y 2 2 + 5 * y 2 3) := by
    norm_num [transportCost, costQ, Fin.sum_univ_three, Fin.sum_univ_four]
  rw [hobj]
  linarith

lemma optimalShipment_optimal : IsOptimalShipment optimalShipment := by
  refine ⟨optimalShipment_feasible, ?_⟩
  intro y hy
  rw [transportCost_optimalShipment]
  exact transportCost_ge_10700 y hy

/-- Estimated change of the total cost in cost_sensitivity_analysis: the
stored total cost of the route scaled by the percentage change. -/
def estimated_cost_change (route_total_cost cost_change : ℚ) : ℚ :=
  route_total_cost * cost_change / 100

/-- New total cost reported by cost_sensitivity_analysis: the base cost plus
the estimated change, with no model rebuilt and no solver invoked. -/
def new_total_cost (base_cost route_total_cost cost_change : ℚ) : ℚ :=
  base_cost + estimated_cost_change route_total_cost cost_change

/-- C5: the transportation cost sensitivity analysis does not re-solve. The
base solve is unique with cost 10700 and ships 50 units on the route from
factory A to warehouse 2 at unit cost 6, so the first analyzed route stores
total cost 300, and for the +20 percent variant the code reports
10700 + 300 times 20 over 100 = 10760 as a closed-form estimate from the
stored base results, building and solving no model for the variant. -/
theorem C5_cost_sensitivity_estimates_without_resolve
    (x : Fin 3 → Fin 4 → ℚ) (hx : IsOptimalShipment x) :
    transportCost x = 10700 ∧ costQ 0 1 * x 0 1 = 300 ∧
      new_total_cost (transportCost x) (costQ 0 1 * x 0 1) 20 = 10760 := by
  obtain ⟨hfeas, hopt⟩ := hx
  have hcost : transportCost x = 10700 := by
    have h1 : transportCost x ≤ 10700 := by
      have := hopt optimalShipment optimalShipment_feasible
      rw [transportCost_optimalShipment] at this
      exact this
    have h2 : 10700 ≤ transportCost x := transportCost_ge_10700 x hfeas
    linarith
  have hx01 : x 0 1 = 50 := by
    obtain ⟨hpos, hrow, hcol⟩ := hfeas
    have h00 := hpos 0 0
    have h03 := hpos 0 3
    have h11 := hpos 1 1
    have h13 := hpos 1 3
    have h20 := hpos 2 0
    have h22 := hpos 2 2
    have hr0 : x 0 0 + x 0 1 + x 0 2 + x 0 3 = 300 := by
      have := hrow 0
      simpa [Fin.sum_univ_four, supplyQ] using this
    have hr1 : x 1 0 + x 1 1 + x 1 2 + x 1 3 = 400 := by
      have := hrow 1
      simpa [Fin.sum_univ_four, supplyQ] using this
    have hr2 : x 2 0 + x 2 1 + x 2 2 + x 2 3 = 500 := by
      have := hrow 2
      simpa [Fin.sum_univ_four, supplyQ] using this
    have hc0 : x 0 0 + x 1 0 + x 2 0 = 250 := by
      have := hcol 0
      simpa [Fin.sum_univ_three, demandQ] using this
    have hc1 : x 0 1 + x 1 1 + x 2 1 = 350 := by
      have := hcol 1
      simpa [Fin.sum_univ_three, demandQ] using this
    have hc2 : x 0 2 + x 1 2 + x 2 2 = 400 := by
      have := hcol 2
      simpa [Fin.sum_univ_three, demandQ] using this
    have hc3 : x 0 3 + x 1 3 + x 2 3 = 200 := by
      have := hcol 3
      simpa [Fin.sum_univ_three, demandQ] using this
    have hobj : 8 * x 0 0 + 6 * x 0 1 + 10 * x 0 2 + 9 * x 0 3 +
        (9 * x 1 0 + 12 * x 1 1 + 13 * x 1 2 + 7 * x 1 3) +
        (14 * x 2 0 + 9 * x 2 1 + 16 * x 2 2 + 5 * x 2 3) = 10700 := by
      rw [← hcost]
      norm_num [transportCost, costQ, Fin.sum_univ_three, Fin.sum_univ_four]
    linarith
  have hcq : costQ 0 1 = 6 := by norm_num [costQ]
  refine ⟨hcost, ?_, ?_⟩
  · rw [hcq, hx01]
    norm_num
  · rw [hcost, hcq, hx01]
    norm_num [new_total_cost, estimated_cost_change]

/-- C5 witness: the optimal base plan realizes the theorem at concrete
values. -/
theorem C5_cost_sensitivity_estimates_without_resolve_witness :
    transportCost optimalShipment = 10700 ∧
      costQ 0 1 * optimalShipment 0 1 = 300 ∧
      new_total_cost (transportCost optimalShipment)
        (costQ 0 1 * optimalShipment 0 1) 20 = 10760 :=
  C5_cost_sensitivity_estimates_without_resolve optimalShipment
    optimalShipment_optimal

end Transportation

namespace Utilization

/-- Resource utilization as printed by solve_production_planning: consumed
over available times 100, a bare division; a zero denominator raises in
Python, embedded as none. -/
def resource_utilization (used available : ℚ) : Option ℚ :=
  if available = 0 then none else some (used / available * 100)

/-- Edge utilization computed in the flow loop of solve_max_flow_problem,
also a bare division with no guard. -/
def flow_utilization (flow cap : ℚ) : Option ℚ :=
  if cap = 0 then none else some (flow / cap * 100)

/-- Edge utilization of the visualize_results method of the network script,
the guarded form: zero when the capacity is not positive. -/
def viz_utilization (flow cap : ℚ) : ℚ :=
  if 0 < cap then flow / cap * 100 else 0

/-- C7: no utilization computation of the scripts can raise a division
error. The guarded form reports zero on a zero denominator; the two resource
divisions of the LP script have the fixed nonzero denominators 100 and 80;
and the max-flow loop divides only on edges carrying positive flow, whose
capacities are positive by feasibility. -/
theorem C7_division_by_zero_policy :
    (∀ f : ℚ, viz_utilization f 0 = 0) ∧
      (∀ u : ℚ,
        (resource_utilization u LinearProgramming.labor_available).isSome) ∧
      (∀ u : ℚ,
        (resource_utilization u LinearProgramming.material_available).isSome) ∧
      (∀ g : NetworkFlow.Flow, NetworkFlow.FeasibleFlow g →
        ∀ e, 0 < g e →
          (flow_utilization (g e) (NetworkFlow.capacity e)).isSome) := by
  refine ⟨?_, ?_, ?_, ?_⟩
  · intro f
    simp [viz_utilization]
  · intro u
    norm_num [resource_utilization, LinearProgramming.labor_available]
  · intro u
    norm_num [resource_utilization, LinearProgramming.material_available]
  · intro g hg e hpos
    have hle := (hg.1 e).2
    have hne : NetworkFlow.capacity e ≠ 0 := by
      intro h0
      rw [h0] at hle
      linarith
    simp [flow_utilization, hne]

/-- C7 witness: the reference maximum flow carries positive flow on the edge
from S to A, and its utilization there is defined. -/
theorem C7_division_by_zero_policy_witness :
    (flow_utilization (NetworkFlow.referenceFlow .sa)
      (NetworkFlow.capacity .sa)).isSome :=
  C7_division_by_zero_policy.2.2.2 NetworkFlow.referenceFlow
    NetworkFlow.referenceFlow_feasible .sa (by decide)

end Utilization

namespace Events

/-- Observable side effects of a demo run that the ordering claim concerns:
solver invocations and chart-image writes. -/
inductive Event
  | solve
  | save
deriving DecidableEq, BEq

/-- Solver calls of solve_production_planning: one CBC solve. -/
def lp_solve_events : List Event := [.solve]

/-- Chart write of the visualize_results method of the LP script. -/
def lp_visualize_events : List Event := [.save]

/-- Solver calls of sensitivity_analysis: one fresh CBC solve per product and
percentage change, three products times four changes. -/
def lp_sensitivity_events : List Event := List.replicate 12 .solve

/-- The generate_report method invokes no solver and writes no file. -/
def lp_report_events : List Event := []

/-- Event order of the main function of the LP script: solve, then visualize,
then sensitivity analysis, then report. -/
def lp_main_events : List Event :=
  lp_solve_events ++ lp_visualize_events ++ lp_sensitivity_events ++
    lp_report_events

/-- Event order of the main function of the network script: max flow, min
cost flow and shortest path solves, then the chart write; the analysis and
report steps after it invoke no solver. -/
def nf_main_events : List Event := [.solve, .solve, .solve, .save]

/-- Event order of the main function of the transportation script: basic and
multi-product solves, then the chart write; cost_sensitivity_analysis after
it invokes no solver, and neither does generate_report. -/
def tp_main_events : List Event := [.solve, .solve, .save]

/-- Check that a run writes the chart exactly once and invokes no solver
after the write. -/
def chartWriteTerminal (t : List Event) : Bool :=
  t.count .save == 1 &&
    ((t.dropWhile fun e => e != .save).tail.count .solve == 0)

/-- C8 counterexample: in the LP script the chart write is not terminal; the
main function saves the chart before the sensitivity analysis performs its
twelve further solver invocations. -/
theorem C8_lp_chart_write_not_terminal :
    chartWriteTerminal lp_main_events = false := by decide

/-- C8 amended: each script writes its chart exactly once; the network and
transportation runs write it after all solver invocations, while the LP run
writes it after the single production-planning solve but before the twelve
sensitivity-analysis re-solves. -/
theorem C8_chart_write_order :
    chartWriteTerminal nf_main_events = true ∧
      chartWriteTerminal tp_main_events = true ∧
      lp_main_events.count .save = 1 ∧
      (lp_main_events.takeWhile fun e => e != .save).count .solve = 1 ∧
      (lp_main_events.dropWhile fun e => e != .save).tail.count .solve = 12 := by
  decide

end Events

namespace Guards

/-- Outcome of a visualization, analysis or report method: the early warning
of the empty-results guard, or a completed body. -/
inductive MethodOutput
  | warning
  | completed
deriving DecidableEq

/-- Results container of the LP demo class, filled by
solve_production_planning. -/
structure LPResults where
  solution : Fin 3 → ℚ
  max_profit : ℚ
  labor_used : ℚ
  material_used : ℚ

/-- The visualize_results method of the LP script: warns and returns with the
state untouched when no results exist. -/
def lp_visualize_results (r : Option LPResults) :
    Option LPResults × MethodOutput :=
  match r with
  | none => (none, .warning)
  | some res => (some res, .completed)

/-- The sensitivity_analysis method of the LP script, with the same guard. -/
def lp_sensitivity_analysis (r : Option LPResults) :
    Option LPResults × MethodOutput :=
  match r with
  | none => (none, .warning)
  | some res => (some res, .completed)

/-- The generate_report method of the LP script, with the same guard. -/
def lp_generate_report (r : Option LPResults) :
    Option LPResults × MethodOutput :=
  match r with
  | none => (none, .warning)
  | some res => (some res, .completed)

/-- Results entries of the network demo class. -/
structure NFResults where
  max_flow_value : ℚ
  shortest_distance : ℕ

/-- Graphs container of the network demo class. -/
structure NFGraphs where
  graph_names : List String

/-- State of the network demo class: the results and graphs containers. -/
structure NFState where
  results : Option NFResults
  graphs : Option NFGraphs

/-- The visualize_results method of the network script, guarded on the
results container. -/
def nf_visualize_results (s : NFState) : NFState × MethodOutput :=
  match s.results with
  | none => (s, .warning)
  | some _ => (s, .completed)

/-- The network_analysis method, guarded on the graphs container. -/
def nf_network_analysis (s : NFState) : NFState × MethodOutput :=
  match s.graphs with
  | none => (s, .warning)
  | some _ => (s, .completed)

/-- The generate_report method of the network script, guarded on the results
container. -/
def nf_generate_report (s : NFState) : NFState × MethodOutput :=
  match s.results with
  | none => (s, .warning)
  | some _ => (s, .completed)

/-- Basic-problem results entry of the transportation demo class. -/
structure TPBasicResults where
  min_cost : ℚ

/-- Multi-product results entry of the transportation demo class. -/
structure TPMultiResults where
  min_cost : ℚ

/-- State of the transportation demo class: the two results entries; the
results dictionary is empty exactly when both are absent. -/
structure TPState where
  basic : Option TPBasicResults
  multi_product : Option TPMultiResults

/-- The visualize_results method of the transportation script, guarded on the
whole results dictionary. -/
def tp_visualize_results (s : TPState) : TPState × MethodOutput :=
  match s.basic, s.multi_product with
  | none, none => (s, .warning)
  | some r, _ => ({ s with basic := some r }, .completed)
  | _, some r => ({ s with multi_product := some r }, .completed)

/-- The cost_sensitivity_analysis method, guarded on the basic entry. -/
def tp_cost_sensitivity_analysis (s : TPState) : TPState × MethodOutput :=
  match s.basic with
  | none => (s, .warning)
  | some _ => (s, .completed)

/-- The generate_report method of the transportation script, guarded on the
whole results dictionary. -/
def tp_generate_report (s : TPState) : TPState × MethodOutput :=
  match s.basic, s.multi_product with
  | none, none => (s, .warning)
  | some r, _ => ({ s with basic := some r }, .completed)
  | _, some r => ({ s with multi_product := some r }, .completed)

/-- State of the network demo class before any solve has run. -/
def nf_empty : NFState := ⟨none, none⟩

/-- State of the transportation demo class before any solve has run. -/
def tp_empty : TPState := ⟨none, none⟩

/-- C10: every visualization, analysis and report method of the three demo
classes, invoked before any solve has populated the results container, prints
a warning and returns with the state unchanged, raising no exception. -/
theorem C10_empty_results_guards :
    lp_visualize_results none = (none, .warning) ∧
      lp_sensitivity_analysis none = (none, .warning) ∧
      lp_generate_report none = (none, .warning) ∧
      nf_visualize_results nf_empty = (nf_empty, .warning) ∧
      nf_network_analysis nf_empty = (nf_empty, .warning) ∧
      nf_generate_report nf_empty = (nf_empty, .warning) ∧
      tp_visualize_results tp_empty = (tp_empty, .warning) ∧
      tp_cost_sensitivity_analysis tp_empty = (tp_empty, .warning) ∧
      tp_generate_report tp_empty = (tp_empty, .warning) :=
  ⟨rfl, rfl, rfl, rfl, rfl, rfl, rfl, rfl, rfl⟩

end Guards
